import Mathlib

/-!
Shallow embedding of the vixcpp/webrpc core: the JSON-like value type it is
built atop (an external collaborator, modelled from its documented interface),
the envelope types `RpcError`, `RpcRequest`, `RpcResponse`, the `Router`
registry with its dispatch algorithm, and the `Dispatcher` orchestration
(single calls, notifications, batches). Handlers are modelled as explicit
state-passing functions so that side effects of a dispatched call are visible
as a state change.
-/

namespace VixWebrpc

/-- Modelled from the spec: the external structured value collaborator
(`vix::json::token`), a tagged union of null, bool, int64, string,
insertion-ordered object and array; its source is not part of this
repository. -/
inductive Json where
  | null : Json
  | bool : Bool → Json
  | int : Int → Json
  | str : String → Json
  | obj : List (String × Json) → Json
  | arr : List Json → Json
deriving Repr

/-- Lookup by key in an association list, first match (models
`kvs::get_ptr` and the handler-map lookup). -/
def assoc_get {α : Type} : List (String × α) → String → Option α
  | [], _ => none
  | (k, v) :: rest, key => if k = key then some v else assoc_get rest key

/-- Insert-or-replace by key in an association list, keeping insertion order
(models `kvs::set` / `kvs::set_string` and handler-map assignment). -/
def assoc_set {α : Type} : List (String × α) → String → α → List (String × α)
  | [], key, v => [(key, v)]
  | (k, w) :: rest, key, v =>
      if k = key then (key, v) :: rest else (k, w) :: assoc_set rest key v

namespace Json

/-- Models `token::is_null()`. -/
def is_null : Json → Bool
  | .null => true
  | _ => false

/-- Models `token::is_string()`. -/
def is_string : Json → Bool
  | .str _ => true
  | _ => false

/-- Models `token::is_i64()`. -/
def is_i64 : Json → Bool
  | .int _ => true
  | _ => false

/-- Models `token::is_object()`. -/
def is_object : Json → Bool
  | .obj _ => true
  | _ => false

/-- Models `token::is_array()`. -/
def is_array : Json → Bool
  | .arr _ => true
  | _ => false

/-- Models `token::as_string()`: the string payload when the token is a
string, absence otherwise. -/
def as_string : Json → Option String
  | .str s => some s
  | _ => none

/-- Models `token::as_string_or(default)`. -/
def as_string_or (j : Json) (d : String) : String :=
  (j.as_string).getD d

/-- Models `token::as_object_ptr()`: the field list when the token is an
object, absence otherwise. -/
def as_object_ptr : Json → Option (List (String × Json))
  | .obj o => some o
  | _ => none

/-- Models `token::as_array_ptr()`: the element list when the token is an
array, absence otherwise. -/
def as_array_ptr : Json → Option (List Json)
  | .arr a => some a
  | _ => none

/-- Field lookup on an object token; absence when the token is not an
object or the key is missing. -/
def get_field (j : Json) (key : String) : Option Json :=
  match j.as_object_ptr with
  | some o => assoc_get o key
  | none => none

/-- True when the token is an object that has the given key. -/
def has_key (j : Json) (key : String) : Bool :=
  (j.get_field key).isSome

end Json

/-- Structured error returned by a WebRPC call (`RpcError` in Error.hpp):
machine-readable code, human-readable message, optional structured
details (null when absent). -/
structure RpcError where
  code : String
  message : String
  details : Json
deriving Repr

namespace RpcError

/-- The default-constructed `RpcError{}`: empty code, empty message, null
details. -/
def empty : RpcError := ⟨"", "", Json.null⟩

/-- Models `RpcError::valid()`: non-empty code. -/
def valid (e : RpcError) : Bool := !e.code.isEmpty

/-- Models `RpcError::has_details()`. -/
def has_details (e : RpcError) : Bool := !e.details.is_null

/-- Models `RpcError::to_json_token()`: object with code and message, plus
details only when details is non-null. -/
def to_json_token (e : RpcError) : Json :=
  if e.details.is_null then
    .obj [("code", .str e.code), ("message", .str e.message)]
  else
    .obj [("code", .str e.code), ("message", .str e.message), ("details", e.details)]

/-- Alias for `to_json_token`, as in the source. -/
def to_json (e : RpcError) : Json := e.to_json_token

/-- Models `RpcError::method_not_found`. -/
def method_not_found (method : String) : RpcError :=
  ⟨"METHOD_NOT_FOUND", "RPC method not found", .obj [("method", .str method)]⟩

/-- Models `RpcError::invalid_params`. -/
def invalid_params (reason : String) : RpcError :=
  ⟨"INVALID_PARAMS", "Invalid RPC parameters", .obj [("reason", .str reason)]⟩

/-- Models `RpcError::parse_error`. -/
def parse_error (reason : String) : RpcError :=
  ⟨"PARSE_ERROR", "Failed to parse RPC payload", .obj [("reason", .str reason)]⟩

/-- Models `RpcError::internal_error` (no details). -/
def internal_error (msg : String) : RpcError :=
  ⟨"INTERNAL_ERROR", msg, Json.null⟩

/-- Models `RpcError::parse`: root must be an object holding string fields
`code` (non-empty) and `message`; `details`, when present, is passed
through unvalidated. `Except.error` carries the failure, matching
`RpcErrorParseResult::fail`. -/
def parse (root : Json) : Except RpcError RpcError :=
  match root.as_object_ptr with
  | none => .error (parse_error "error must be an object")
  | some o =>
    match assoc_get o "code", assoc_get o "message" with
    | some code_t, some msg_t =>
      if !(code_t.is_string && msg_t.is_string) then
        .error (parse_error "code and message must be strings")
      else
        let code := code_t.as_string_or ""
        let msg := msg_t.as_string_or ""
        if code.isEmpty then
          .error (parse_error "code must not be empty")
        else
          .ok ⟨code, msg, (assoc_get o "details").getD Json.null⟩
    | _, _ => .error (parse_error "error object must contain code and message")

end RpcError

/-- Transport-agnostic request envelope (`RpcRequest` in Request.hpp):
optional id (null when absent), required method name, optional params. -/
structure RpcRequest where
  id : Json
  method : String
  params : Json
deriving Repr

namespace RpcRequest

/-- Models `RpcRequest::has_id()`: id is present (not null). -/
def has_id (r : RpcRequest) : Bool := !r.id.is_null

/-- Models `RpcRequest::valid()`: non-empty method. -/
def valid (r : RpcRequest) : Bool := !r.method.isEmpty

/-- Models `RpcRequest::to_json()`: object with `method` always, `id` only
when non-null, `params` only when non-null. -/
def to_json (r : RpcRequest) : Json :=
  let o := assoc_set [] "method" (Json.str r.method)
  let o := if !r.id.is_null then assoc_set o "id" r.id else o
  let o := if !r.params.is_null then assoc_set o "params" r.params else o
  .obj o

/-- Models `RpcRequest::parse`: root must be an object; `method` must exist
and be a non-empty string; `id`, when present, must be null, string or
int64; `params`, when present, is passed through unvalidated. -/
def parse (root : Json) : Except RpcError RpcRequest :=
  match root.as_object_ptr with
  | none => .error (RpcError.parse_error "request must be an object")
  | some o =>
    match assoc_get o "method" with
    | none => .error (RpcError.invalid_params "missing field: method")
    | some m =>
      match m.as_string with
      | none => .error (RpcError.invalid_params "method must be a non-empty string")
      | some ms =>
        if ms.isEmpty then
          .error (RpcError.invalid_params "method must be a non-empty string")
        else
          match assoc_get o "id" with
          | some id_tok =>
            if !(id_tok.is_null || id_tok.is_string || id_tok.is_i64) then
              .error (RpcError.invalid_params "id must be string, int, or null")
            else
              .ok ⟨id_tok, ms, (assoc_get o "params").getD Json.null⟩
          | none =>
            .ok ⟨Json.null, ms, (assoc_get o "params").getD Json.null⟩

end RpcRequest

/-- Transport-agnostic response envelope (`RpcResponse` in Response.hpp):
echoed id, success payload, error payload, and the discriminant
`has_error`. -/
structure RpcResponse where
  id : Json
  result : Json
  error : RpcError
  has_error : Bool
deriving Repr

namespace RpcResponse

/-- Models the static `RpcResponse::ok(id, result)` success builder. -/
def ok (id_ : Json) (result_ : Json) : RpcResponse :=
  ⟨id_, result_, RpcError.empty, false⟩

/-- Models the static `RpcResponse::fail(id, err)` error builder. -/
def fail (id_ : Json) (err : RpcError) : RpcResponse :=
  ⟨id_, Json.null, err, true⟩

/-- Models `RpcResponse::is_notification()`: the id is null. -/
def is_notification (r : RpcResponse) : Bool := r.id.is_null

/-- Models `RpcResponse::to_json()`: `{id, error}` when has_error, else
`{id, result}`. -/
def to_json (r : RpcResponse) : Json :=
  if r.has_error then
    .obj [("id", r.id), ("error", r.error.to_json)]
  else
    .obj [("id", r.id), ("result", r.result)]

/-- Models `RpcResponse::parse`: root must be an object; `id`, when present,
must be null/string/int64; exactly one of `result`/`error` must be
present; a present `error` is validated by `RpcError::parse` and its
failure propagated. -/
def parse (root : Json) : Except RpcError RpcResponse :=
  match root.as_object_ptr with
  | none => .error (RpcError.parse_error "response must be an object")
  | some o =>
    let id_step : Except RpcError Json :=
      match assoc_get o "id" with
      | none => .ok Json.null
      | some idv =>
        if !(idv.is_null || idv.is_string || idv.is_i64) then
          .error (RpcError.invalid_params "id must be string, int, or null")
        else
          .ok idv
    match id_step with
    | .error e => .error e
    | .ok id_tok =>
      match assoc_get o "result", assoc_get o "error" with
      | some _, some _ =>
        .error (RpcError.invalid_params "response cannot contain both result and error")
      | none, none =>
        .error (RpcError.invalid_params "response must contain result or error")
      | none, some errv =>
        match RpcError.parse errv with
        | .error e => .error e
        | .ok err => .ok ⟨id_tok, Json.null, err, true⟩
      | some resv, none =>
        .ok ⟨id_tok, resv, RpcError.empty, false⟩

end RpcResponse

/-- Metadata container (`Context::MetaMap`), a string-to-string map modelled
as an association list. -/
abbrev MetaMap := List (String × String)

/-- Execution context for a single WebRPC call (`Context` in Context.hpp):
method name, params, id, the informational transport label, and the
optional metadata map. -/
structure Context where
  method : String
  params : Json
  id : Json
  transport : String
  meta : Option MetaMap

namespace Context

/-- Models `Context::has_id()`. -/
def has_id (c : Context) : Bool := !c.id.is_null

/-- Models `Context::params_is_object()`. -/
def params_is_object (c : Context) : Bool := c.params.is_object

/-- Models `Context::params_is_array()`. -/
def params_is_array (c : Context) : Bool := c.params.is_array

/-- Models `Context::meta_value`: empty result when no metadata map was
supplied or the key is absent. -/
def meta_value (c : Context) (key : String) : String :=
  match c.meta with
  | none => ""
  | some m => (assoc_get m key).getD ""

/-- Models `Context::has_meta`. -/
def has_meta (c : Context) (key : String) : Bool :=
  match c.meta with
  | none => false
  | some m => (assoc_get m key).isSome

end Context

/-- Result of an RPC handler (`RpcResult` in Router.hpp): either a success
token or a structured error. -/
inductive RpcResult where
  | success (value : Json) : RpcResult
  | failure (e : RpcError) : RpcResult
deriving Repr

/-- RPC method handler (`RpcHandler`). Handlers receive an execution Context
and return a result token or an RpcError; possible side effects of the
handler are modelled by explicit passing of a state of type `σ`. -/
def RpcHandler (σ : Type) := Context → σ → RpcResult × σ

/-- Registry and dispatcher for RPC methods (`Router` in Router.hpp): a map
from method name to handler, modelled as an association list with unique
keys. -/
structure Router (σ : Type) where
  handlers : List (String × RpcHandler σ)

namespace Router

variable {σ : Type}

/-- Models `Router::add`: insert, or silently replace an existing handler
under the same name. -/
def add (r : Router σ) (name : String) (h : RpcHandler σ) : Router σ :=
  ⟨assoc_set r.handlers name h⟩

/-- Models `Router::has`. -/
def has (r : Router σ) (name : String) : Bool :=
  (assoc_get r.handlers name).isSome

/-- Models `Router::dispatch` on a parsed request: validate the request,
resolve the method, build a Context and execute the handler; the state
is returned unchanged when no handler runs. -/
def dispatch (r : Router σ) (req : RpcRequest) (transport : String)
    (meta : Option MetaMap) (s : σ) : RpcResult × σ :=
  if !req.valid then
    (.failure (RpcError.invalid_params "invalid rpc request"), s)
  else
    match assoc_get r.handlers req.method with
    | none => (.failure (RpcError.method_not_found req.method), s)
    | some h => h ⟨req.method, req.params, req.id, transport, meta⟩ s

/-- Models the raw-token `Router::dispatch` overload: parse first, return a
parse failure directly, otherwise delegate to the request overload. -/
def dispatch_raw (r : Router σ) (raw : Json) (transport : String)
    (meta : Option MetaMap) (s : σ) : RpcResult × σ :=
  match RpcRequest.parse raw with
  | .error e => (.failure e, s)
  | .ok req => r.dispatch req transport meta s

end Router

namespace Dispatcher

variable {σ : Type}

/-- Models `Dispatcher::handle_one`: parse the payload (a parse failure
yields a failure response with id explicitly null); a null request id is
a notification — the router is still dispatched for its side effects (the
state change is kept) but no response is produced; otherwise the dispatch
outcome is wrapped into an ok/fail response echoing the request id. -/
def handle_one (router : Router σ) (payload : Json) (transport : String)
    (meta : Option MetaMap) (s : σ) : Option RpcResponse × σ :=
  match RpcRequest.parse payload with
  | .error e => (some (RpcResponse.fail Json.null e), s)
  | .ok req =>
    if req.id.is_null then
      let out := router.dispatch req transport meta s
      (none, out.2)
    else
      match router.dispatch req transport meta s with
      | (.failure e, s2) => (some (RpcResponse.fail req.id e), s2)
      | (.success v, s2) => (some (RpcResponse.ok req.id v), s2)

/-- The loop body of `Dispatcher::handle_batch`: items are visited
sequentially in input order; a non-object item appends a failure entry
(id null, parse_error) and processing continues; otherwise the item's
`handle_one` response is appended unless it was a notification. -/
def batch_loop (router : Router σ) : List Json → String → Option MetaMap → σ →
    List Json × σ
  | [], _, _, s => ([], s)
  | item :: rest, transport, meta, s =>
    if !item.is_object then
      let r := RpcResponse.fail Json.null (RpcError.parse_error "batch item must be an object")
      let tail := batch_loop router rest transport meta s
      (r.to_json :: tail.1, tail.2)
    else
      match handle_one router item transport meta s with
      | (none, s1) => batch_loop router rest transport meta s1
      | (some resp, s1) =>
        let tail := batch_loop router rest transport meta s1
        (resp.to_json :: tail.1, tail.2)

/-- Models `Dispatcher::handle_batch`: a non-array payload yields a single
failure response object; an empty array yields a single failure response
object (id null, invalid_params); otherwise the items are processed by
`batch_loop`, and the collected entries are returned as an array unless
every item was a notification (then nothing is returned). -/
def handle_batch (router : Router σ) (payload : Json) (transport : String)
    (meta : Option MetaMap) (s : σ) : Option Json × σ :=
  match payload.as_array_ptr with
  | none =>
    (some (RpcResponse.fail Json.null (RpcError.parse_error "batch must be an array")).to_json, s)
  | some elems =>
    if elems.isEmpty then
      (some (RpcResponse.fail Json.null (RpcError.invalid_params "batch must not be empty")).to_json, s)
    else
      let out := batch_loop router elems transport meta s
      if out.1.isEmpty then (none, out.2) else (some (.arr out.1), out.2)

/-- Models `Dispatcher::handle`: arrays are delegated to batch handling;
otherwise the single-call response is serialized, or nothing is returned
for a notification. -/
def handle (router : Router σ) (payload : Json) (transport : String)
    (meta : Option MetaMap) (s : σ) : Option Json × σ :=
  if payload.is_array then
    handle_batch router payload transport meta s
  else
    match handle_one router payload transport meta s with
    | (none, s1) => (none, s1)
    | (some r, s1) => (some r.to_json, s1)

end Dispatcher

/-- Modelled from the spec (refinement target for batch handling): the entry
contributed by one batch item — for an item that is not an object, a failure
entry with id null and `parse_error("batch item must be an object")`; for a
well-formed item, its serialized `handle_one` response; nothing for a
notification. -/
def batch_item_entry_spec {σ : Type} (router : Router σ) (item : Json)
    (transport : String) (meta : Option MetaMap) (s : σ) : Option Json × σ :=
  if item.is_object = false then
    (some (RpcResponse.fail Json.null
      (RpcError.parse_error "batch item must be an object")).to_json, s)
  else
    let out := Dispatcher.handle_one router item transport meta s
    (Option.map RpcResponse.to_json out.1, out.2)

/-- Modelled from the spec (refinement target for batch handling): iterate
items in input order, sequentially, threading the handler state, collecting
each item's entry in order; notifications are silently skipped. -/
def batch_entries_spec {σ : Type} (router : Router σ) : List Json → String →
    Option MetaMap → σ → List Json × σ
  | [], _, _, s => ([], s)
  | item :: rest, transport, meta, s =>
    let head := batch_item_entry_spec router item transport meta s
    let tail := batch_entries_spec router rest transport meta head.2
    (match head.1 with
     | none => tail.1
     | some j => j :: tail.1, tail.2)

/-- A concrete router whose single handler always fails and bumps a counter
state; used to exercise dispatch at concrete inputs. -/
def failing_router : Router Nat :=
  ⟨[("ping", fun _ s => (.failure (RpcError.internal_error "boom"), s + 1))]⟩

/-- A concrete router whose single handler succeeds with a constant token and
bumps a counter state; it reads nothing from its Context. -/
def counting_router : Router Nat :=
  ⟨[("ping", fun _ s => (.success (Json.str "pong"), s + 1))]⟩

/-! Helper lemmas shared by the claim theorems. -/

/-- A non-empty string is not `isEmpty`. -/
theorem str_isEmpty_eq_false {s : String} (h : s ≠ "") : s.isEmpty = false := by
  rw [Bool.eq_false_iff]
  intro he
  exact h ((String.isEmpty_iff s).mp he)

/-- The `is_null` discriminant characterizes the null token. -/
theorem Json.is_null_true_iff {j : Json} : j.is_null = true ↔ j = Json.null := by
  cases j <;> simp [Json.is_null]

/-- A payload that parses as a request is an object, hence not an array. -/
theorem parse_ok_not_array {p : Json} {req : RpcRequest}
    (h : RpcRequest.parse p = .ok req) : p.is_array = false := by
  cases p <;> simp [RpcRequest.parse, Json.as_object_ptr, Json.is_array] at h ⊢

/-- A successful association-list lookup comes from a member of the list. -/
theorem assoc_get_mem {α : Type} {l : List (String × α)} {k : String} {v : α}
    (h : assoc_get l k = some v) : (k, v) ∈ l := by
  induction l with
  | nil => simp [assoc_get] at h
  | cons hd tl ih =>
    obtain ⟨k0, v0⟩ := hd
    by_cases hk : k0 = k
    · subst hk
      simp [assoc_get] at h
      subst h
      exact List.mem_cons_self _ _
    · simp [assoc_get, hk] at h
      exact List.mem_cons_of_mem _ (ih h)

/-- C10: for every RpcError `e` with non-empty code, `RpcError::parse` applied
to `e.to_json_token()` succeeds and returns an RpcError whose code, message
and details equal those of `e` — including the case of null details, which
`to_json_token` omits and `parse` restores as null. -/
theorem rpc_error_roundtrip (e : RpcError) (hc : e.code ≠ "") :
    RpcError.parse e.to_json_token = .ok e := by
  obtain ⟨c, m, d⟩ := e
  simp only at hc
  by_cases hd : d.is_null = true
  · have hdn : d = Json.null := Json.is_null_true_iff.mp hd
    subst hdn
    simp [RpcError.to_json_token, RpcError.parse, Json.as_object_ptr, assoc_get,
      Json.is_null, Json.is_string, Json.as_string_or, Json.as_string,
      str_isEmpty_eq_false hc]
  · have hdn : d.is_null = false := by
      cases hx : d.is_null with
      | true => exact absurd hx hd
      | false => rfl
    simp [RpcError.to_json_token, RpcError.parse, Json.as_object_ptr, assoc_get,
      hdn, Json.is_string, Json.as_string_or, Json.as_string,
      str_isEmpty_eq_false hc]

/-- Witness for C10 at a concrete error with structured details. -/
theorem rpc_error_roundtrip_witness :
    (RpcError.method_not_found "sum").code ≠ "" ∧
      RpcError.parse (RpcError.method_not_found "sum").to_json_token =
        .ok (RpcError.method_not_found "sum") :=
  ⟨by decide, rpc_error_roundtrip (RpcError.method_not_found "sum") (by decide)⟩

/-- C7: for every valid request whose method is not registered in the Router,
`Router::dispatch` returns the METHOD_NOT_FOUND RpcError whose details object
has a "method" field equal to the requested method name; no handler runs, so
the state is unchanged. -/
theorem dispatch_method_not_found {σ : Type} (router : Router σ) (req : RpcRequest)
    (transport : String) (meta : Option MetaMap) (s : σ)
    (hvalid : req.valid = true) (hmiss : router.has req.method = false) :
    router.dispatch req transport meta s =
      (.failure (RpcError.method_not_found req.method), s) ∧
    (RpcError.method_not_found req.method).code = "METHOD_NOT_FOUND" ∧
    (RpcError.method_not_found req.method).details.get_field "method" =
      some (.str req.method) := by
  refine ⟨?_, rfl, ?_⟩
  · unfold Router.dispatch
    rw [hvalid]
    cases hx : assoc_get router.handlers req.method with
    | none => simp
    | some h => simp [Router.has, hx] at hmiss
  · simp [RpcError.method_not_found, Json.get_field, Json.as_object_ptr, assoc_get]

/-- Witness for C7 on an empty router. -/
theorem dispatch_method_not_found_witness :
    RpcRequest.valid ⟨Json.int 1, "nope", Json.null⟩ = true ∧
    Router.has (⟨[]⟩ : Router Unit) "nope" = false ∧
    Router.dispatch (⟨[]⟩ : Router Unit) ⟨Json.int 1, "nope", Json.null⟩ "" none () =
      (.failure (RpcError.method_not_found "nope"), ()) :=
  ⟨rfl, rfl,
    (dispatch_method_not_found (⟨[]⟩ : Router Unit) ⟨Json.int 1, "nope", Json.null⟩
      "" none () rfl rfl).1⟩

/-- C5: for every payload on which `RpcRequest::parse` fails,
`Dispatcher::handle_one` returns a failure response carrying the parse
RpcError whose id is exactly null — no other id is fabricated. -/
theorem handle_one_parse_failure {σ : Type} (router : Router σ) (payload : Json)
    (transport : String) (meta : Option MetaMap) (s : σ) (e : RpcError)
    (hp : RpcRequest.parse payload = .error e) :
    Dispatcher.handle_one router payload transport meta s =
      (some (RpcResponse.fail Json.null e), s) ∧
    (RpcResponse.fail Json.null e).id = Json.null := by
  unfold Dispatcher.handle_one
  rw [hp]
  exact ⟨rfl, rfl⟩

/-- Witness for C5 on a non-object payload. -/
theorem handle_one_parse_failure_witness :
    RpcRequest.parse (Json.int 3) =
      .error (RpcError.parse_error "request must be an object") ∧
    Dispatcher.handle_one (⟨[]⟩ : Router Unit) (Json.int 3) "" none () =
      (some (RpcResponse.fail Json.null
        (RpcError.parse_error "request must be an object")), ()) :=
  ⟨rfl,
    (handle_one_parse_failure (⟨[]⟩ : Router Unit) (Json.int 3) "" none ()
      (RpcError.parse_error "request must be an object") rfl).1⟩

/-- C4: for the empty-array payload, batch handling returns a single failure
response object — not wrapped in an array — with id null and the
invalid_params error (code INVALID_PARAMS, reason "batch must not be
empty"); the state is untouched. -/
theorem handle_empty_batch {σ : Type} (router : Router σ) (transport : String)
    (meta : Option MetaMap) (s : σ) :
    Dispatcher.handle router (Json.arr []) transport meta s =
      (some (Json.obj [("id", Json.null),
        ("error", Json.obj [("code", Json.str "INVALID_PARAMS"),
          ("message", Json.str "Invalid RPC parameters"),
          ("details", Json.obj [("reason", Json.str "batch must not be empty")])])]), s) :=
  rfl

/-- C1: a payload that parses as a request with null id (absent or explicit
null) is a notification: `handle_one` and `handle` return no response, for
every router — whether its handler succeeds or fails — yet the
`Router::dispatch` call is still made for its side effects: the final state
is exactly the state after dispatching the request. -/
theorem notification_no_response {σ : Type} (router : Router σ) (payload : Json)
    (transport : String) (meta : Option MetaMap) (s : σ) (req : RpcRequest)
    (hp : RpcRequest.parse payload = .ok req) (hid : req.id = Json.null) :
    (Dispatcher.handle_one router payload transport meta s).1 = none ∧
    (Dispatcher.handle router payload transport meta s).1 = none ∧
    (Dispatcher.handle_one router payload transport meta s).2 =
      (router.dispatch req transport meta s).2 := by
  have hna : payload.is_array = false := parse_ok_not_array hp
  have h1 : Dispatcher.handle_one router payload transport meta s =
      (none, (router.dispatch req transport meta s).2) := by
    unfold Dispatcher.handle_one
    rw [hp]
    simp [hid, Json.is_null]
  refine ⟨by rw [h1], ?_, by rw [h1]⟩
  unfold Dispatcher.handle
  rw [hna]
  simp [h1]

/-- Witness for C1: a notification dispatched to a failing handler produces
no response, and the handler's side effect (the counter bump) happened. -/
theorem notification_no_response_witness :
    RpcRequest.parse (Json.obj [("method", Json.str "ping")]) =
      .ok ⟨Json.null, "ping", Json.null⟩ ∧
    (Dispatcher.handle_one failing_router
      (Json.obj [("method", Json.str "ping")]) "" none 0).1 = none ∧
    (Dispatcher.handle failing_router
      (Json.obj [("method", Json.str "ping")]) "" none 0).1 = none :=
  ⟨rfl,
    (notification_no_response failing_router (Json.obj [("method", Json.str "ping")])
      "" none 0 ⟨Json.null, "ping", Json.null⟩ rfl rfl).1,
    (notification_no_response failing_router (Json.obj [("method", Json.str "ping")])
      "" none 0 ⟨Json.null, "ping", Json.null⟩ rfl rfl).2.1⟩

/-- C9: `Router::dispatch` gives the same outcome under any two transport
labels whenever no registered handler reads the Context's transport field —
the label is informational and affects neither validation, nor lookup, nor
the handler call. -/
theorem dispatch_transport_invariant {σ : Type} (router : Router σ)
    (hfree : ∀ name h, (name, h) ∈ router.handlers →
      ∀ c t0 s0, h { c with transport := t0 } s0 = h c s0)
    (req : RpcRequest) (t1 t2 : String) (meta : Option MetaMap) (s : σ) :
    router.dispatch req t1 meta s = router.dispatch req t2 meta s := by
  unfold Router.dispatch
  cases hv : req.valid with
  | false => simp
  | true =>
    simp only [hv, Bool.not_true, Bool.false_eq_true, if_false]
    cases hx : assoc_get router.handlers req.method with
    | none => rfl
    | some h =>
      have hm := assoc_get_mem hx
      have e1 := hfree _ _ hm ⟨req.method, req.params, req.id, t2, meta⟩ t1 s
      simpa using e1

/-- Witness for C9: a transport-blind handler yields the same dispatch result
under labels "http" and "websocket". -/
theorem dispatch_transport_invariant_witness :
    Router.dispatch counting_router ⟨Json.int 7, "ping", Json.null⟩ "http" none 0 =
      Router.dispatch counting_router ⟨Json.int 7, "ping", Json.null⟩ "websocket" none 0 :=
  dispatch_transport_invariant counting_router
    (by
      intro name h hm c t0 s0
      simp [counting_router] at hm
      rw [hm.2])
    ⟨Json.int 7, "ping", Json.null⟩ "http" "websocket" none 0

/-- C6: `RpcResponse::parse` on any object containing both "result" and
"error" keys, and on any object containing neither, fails with an RpcError
whose code is INVALID_PARAMS (whichever validation step fires first, the
code is the same). -/
theorem response_parse_xor_failure (fields : List (String × Json))
    (h : ((assoc_get fields "result").isSome = true ∧
            (assoc_get fields "error").isSome = true) ∨
         (assoc_get fields "result" = none ∧ assoc_get fields "error" = none)) :
    ∃ e, RpcResponse.parse (Json.obj fields) = .error e ∧
      e.code = "INVALID_PARAMS" := by
  unfold RpcResponse.parse
  simp only [Json.as_object_ptr]
  cases hid : assoc_get fields "id" with
  | some idv =>
    by_cases hg : (!(idv.is_null || idv.is_string || idv.is_i64)) = true
    · exact ⟨RpcError.invalid_params "id must be string, int, or null",
        by simp [hg], rfl⟩
    · have hg' : (!(idv.is_null || idv.is_string || idv.is_i64)) = false := by
        cases hb : (!(idv.is_null || idv.is_string || idv.is_i64)) with
        | true => exact absurd hb hg
        | false => rfl
      rcases h with ⟨h1, h2⟩ | ⟨h1, h2⟩
      · obtain ⟨rv, hrv⟩ := Option.isSome_iff_exists.mp h1
        obtain ⟨ev, hev⟩ := Option.isSome_iff_exists.mp h2
        exact ⟨RpcError.invalid_params "response cannot contain both result and error",
          by simp [hg', hrv, hev], rfl⟩
      · exact ⟨RpcError.invalid_params "response must contain result or error",
          by simp [hg', h1, h2], rfl⟩
  | none =>
    rcases h with ⟨h1, h2⟩ | ⟨h1, h2⟩
    · obtain ⟨rv, hrv⟩ := Option.isSome_iff_exists.mp h1
      obtain ⟨ev, hev⟩ := Option.isSome_iff_exists.mp h2
      exact ⟨RpcError.invalid_params "response cannot contain both result and error",
        by simp [hrv, hev], rfl⟩
    · exact ⟨RpcError.invalid_params "response must contain result or error",
        by simp [h1, h2], rfl⟩

/-- Witness for C6 on the object with neither key. -/
theorem response_parse_xor_failure_witness :
    (assoc_get ([] : List (String × Json)) "result" = none ∧
      assoc_get ([] : List (String × Json)) "error" = none) ∧
    ∃ e, RpcResponse.parse (Json.obj []) = .error e ∧
      e.code = "INVALID_PARAMS" :=
  ⟨⟨rfl, rfl⟩, response_parse_xor_failure [] (Or.inr ⟨rfl, rfl⟩)⟩

/-- A response produced by a successful `RpcResponse::parse` has one of the
two constructed shapes: an error response with null result, or a success
response with the default-constructed (empty) error. -/
theorem response_parse_ok_shape {root : Json} {r : RpcResponse}
    (h : RpcResponse.parse root = .ok r) :
    (r.has_error = true ∧ r.result = Json.null) ∨
    (r.has_error = false ∧ r.error = RpcError.empty) := by
  unfold RpcResponse.parse at h
  cases root with
  | null => simp [Json.as_object_ptr] at h
  | bool b => simp [Json.as_object_ptr] at h
  | int n => simp [Json.as_object_ptr] at h
  | str t => simp [Json.as_object_ptr] at h
  | arr a => simp [Json.as_object_ptr] at h
  | obj o =>
    simp only [Json.as_object_ptr] at h
    split at h
    · exact absurd h (by simp)
    · split at h
      · exact absurd h (by simp)
      · exact absurd h (by simp)
      · split at h
        · exact absurd h (by simp)
        · simp only [Except.ok.injEq] at h
          subst h
          left
          exact ⟨rfl, rfl⟩
      · simp only [Except.ok.injEq] at h
        subst h
        right
        exact ⟨rfl, rfl⟩

/-- C2: every RpcResponse built by `ok` or `fail`, or produced by a
successful `parse`, carries exactly one of result/error — the discriminant
selects one side and the other side is inert (null result, or the empty
default error) — and its `to_json` output contains exactly one of the keys
"result"/"error", together with "id". -/
theorem response_xor_invariant (r : RpcResponse)
    (hr : (∃ i v, r = RpcResponse.ok i v) ∨ (∃ i e, r = RpcResponse.fail i e) ∨
          ∃ root, RpcResponse.parse root = .ok r) :
    ((r.has_error = true ∧ r.result = Json.null ∧
        r.to_json.has_key "error" = true ∧ r.to_json.has_key "result" = false) ∨
     (r.has_error = false ∧ r.error = RpcError.empty ∧
        r.to_json.has_key "result" = true ∧ r.to_json.has_key "error" = false)) ∧
    r.to_json.has_key "id" = true := by
  have hshape : (r.has_error = true ∧ r.result = Json.null) ∨
      (r.has_error = false ∧ r.error = RpcError.empty) := by
    rcases hr with ⟨i, v, rfl⟩ | ⟨i, e, rfl⟩ | ⟨root, hp⟩
    · exact Or.inr ⟨rfl, rfl⟩
    · exact Or.inl ⟨rfl, rfl⟩
    · exact response_parse_ok_shape hp
  obtain ⟨ri, rres, rerr, rhe⟩ := r
  rcases hshape with ⟨h1, h2⟩ | ⟨h1, h2⟩ <;>
    simp_all [RpcResponse.to_json, Json.has_key, Json.get_field,
      Json.as_object_ptr, assoc_get]

/-- Witness for C2 at a concrete success response. -/
theorem response_xor_invariant_witness :
    RpcResponse.ok (Json.int 1) (Json.str "v") =
      RpcResponse.ok (Json.int 1) (Json.str "v") ∧
    ((((RpcResponse.ok (Json.int 1) (Json.str "v")).has_error = true ∧
        (RpcResponse.ok (Json.int 1) (Json.str "v")).result = Json.null ∧
        (RpcResponse.ok (Json.int 1) (Json.str "v")).to_json.has_key "error" = true ∧
        (RpcResponse.ok (Json.int 1) (Json.str "v")).to_json.has_key "result" = false) ∨
      ((RpcResponse.ok (Json.int 1) (Json.str "v")).has_error = false ∧
        (RpcResponse.ok (Json.int 1) (Json.str "v")).error = RpcError.empty ∧
        (RpcResponse.ok (Json.int 1) (Json.str "v")).to_json.has_key "result" = true ∧
        (RpcResponse.ok (Json.int 1) (Json.str "v")).to_json.has_key "error" = false)) ∧
     (RpcResponse.ok (Json.int 1) (Json.str "v")).to_json.has_key "id" = true) :=
  ⟨rfl, response_xor_invariant (RpcResponse.ok (Json.int 1) (Json.str "v"))
    (Or.inl ⟨Json.int 1, Json.str "v", rfl⟩)⟩

/-- C8: for every object with a non-empty string "method", an "id" that is
null, a string or an int64, and any "params", `RpcRequest::parse` succeeds,
and `to_json` of the parsed request reproduces "method" always, reproduces
"id" and "params" exactly when they were non-null originally, and drops
null-valued "id"/"params" fields. -/
theorem request_roundtrip (fields : List (String × Json)) (m : String)
    (idv pv : Json)
    (hm : assoc_get fields "method" = some (Json.str m)) (hm0 : m ≠ "")
    (hid : assoc_get fields "id" = some idv)
    (hidok : (idv.is_null || idv.is_string || idv.is_i64) = true)
    (hpv : assoc_get fields "params" = some pv) :
    RpcRequest.parse (Json.obj fields) = .ok ⟨idv, m, pv⟩ ∧
    (RpcRequest.to_json ⟨idv, m, pv⟩).get_field "method" = some (Json.str m) ∧
    (idv.is_null = false →
      (RpcRequest.to_json ⟨idv, m, pv⟩).get_field "id" = some idv) ∧
    (idv.is_null = true →
      (RpcRequest.to_json ⟨idv, m, pv⟩).get_field "id" = none) ∧
    (pv.is_null = false →
      (RpcRequest.to_json ⟨idv, m, pv⟩).get_field "params" = some pv) ∧
    (pv.is_null = true →
      (RpcRequest.to_json ⟨idv, m, pv⟩).get_field "params" = none) := by
  refine ⟨?_, ?_, ?_, ?_, ?_, ?_⟩
  · unfold RpcRequest.parse
    simp [Json.as_object_ptr, hm, hid, Json.as_string,
      str_isEmpty_eq_false hm0, hidok, hpv]
  · cases hni : idv.is_null <;> cases hnp : pv.is_null <;>
      simp [RpcRequest.to_json, assoc_set, Json.get_field, Json.as_object_ptr,
        assoc_get, hni, hnp]
  · intro hni
    cases hnp : pv.is_null <;>
      simp [RpcRequest.to_json, assoc_set, Json.get_field, Json.as_object_ptr,
        assoc_get, hni, hnp]
  · intro hni
    cases hnp : pv.is_null <;>
      simp [RpcRequest.to_json, assoc_set, Json.get_field, Json.as_object_ptr,
        assoc_get, hni, hnp]
  · intro hnp
    cases hni : idv.is_null <;>
      simp [RpcRequest.to_json, assoc_set, Json.get_field, Json.as_object_ptr,
        assoc_get, hni, hnp]
  · intro hnp
    cases hni : idv.is_null <;>
      simp [RpcRequest.to_json, assoc_set, Json.get_field, Json.as_object_ptr,
        assoc_get, hni, hnp]

/-- Witness for C8 on a concrete well-formed request object with an explicit
null params field. -/
theorem request_roundtrip_witness :
    ("m" : String) ≠ "" ∧
    RpcRequest.parse (Json.obj [("method", Json.str "m"), ("id", Json.int 1),
      ("params", Json.null)]) = .ok ⟨Json.int 1, "m", Json.null⟩ :=
  ⟨by decide,
    (request_roundtrip
      [("method", Json.str "m"), ("id", Json.int 1), ("params", Json.null)]
      "m" (Json.int 1) Json.null rfl (by decide) rfl rfl rfl).1⟩

/-- The Dispatcher's batch loop computes exactly the per-item entry sequence
described by the spec-side recursion. -/
theorem batch_loop_eq_spec {σ : Type} (router : Router σ) (items : List Json)
    (transport : String) (meta : Option MetaMap) (s : σ) :
    Dispatcher.batch_loop router items transport meta s =
      batch_entries_spec router items transport meta s := by
  induction items generalizing s with
  | nil => rfl
  | cons item rest ih =>
    simp only [Dispatcher.batch_loop, batch_entries_spec, batch_item_entry_spec]
    cases ho : item.is_object with
    | false => simp [ho, ih]
    | true =>
      cases hx : Dispatcher.handle_one router item transport meta s with
      | mk r1 s1 => cases r1 <;> simp [ho, hx, ih]

/-- The spec-side entry sequence distributes over list append, threading the
state: the entries of `xs ++ ys` are the entries of `xs` followed by the
entries of `ys` started in the state left by `xs`. -/
theorem batch_entries_spec_append {σ : Type} (router : Router σ) (xs ys : List Json)
    (transport : String) (meta : Option MetaMap) (s : σ) :
    batch_entries_spec router (xs ++ ys) transport meta s =
      ((batch_entries_spec router xs transport meta s).1 ++
         (batch_entries_spec router ys transport meta
            (batch_entries_spec router xs transport meta s).2).1,
       (batch_entries_spec router ys transport meta
          (batch_entries_spec router xs transport meta s).2).2) := by
  induction xs generalizing s with
  | nil => simp [batch_entries_spec]
  | cons x rest ih =>
    simp only [List.cons_append, batch_entries_spec]
    cases hx : (batch_item_entry_spec router x transport meta s).1 <;>
      simp [hx, ih]

/-- C3: for every non-empty array payload, Dispatcher batch handling equals
the spec-side order-preserving recursion over the items — each non-object
item contributes a failure entry (id null, PARSE_ERROR "batch item must be
an object") at its position, each well-formed item contributes its
`handle_one` response unless it is a notification — and the entry sequence
distributes over append, so no malformed or failing item prevents
processing of the remaining items. -/
theorem handle_batch_refines_spec {σ : Type} (router : Router σ) (items : List Json)
    (transport : String) (meta : Option MetaMap) (s : σ) (hne : items ≠ []) :
    (Dispatcher.handle router (Json.arr items) transport meta s =
      (if (batch_entries_spec router items transport meta s).1.isEmpty then none
       else some (Json.arr (batch_entries_spec router items transport meta s).1),
       (batch_entries_spec router items transport meta s).2)) ∧
    (∀ xs ys t0 m0 s0,
      batch_entries_spec router (xs ++ ys) t0 m0 s0 =
        ((batch_entries_spec router xs t0 m0 s0).1 ++
           (batch_entries_spec router ys t0 m0
              (batch_entries_spec router xs t0 m0 s0).2).1,
         (batch_entries_spec router ys t0 m0
            (batch_entries_spec router xs t0 m0 s0).2).2)) := by
  constructor
  · have hie : items.isEmpty = false := by
      cases items with
      | nil => exact absurd rfl hne
      | cons a t => rfl
    unfold Dispatcher.handle Dispatcher.handle_batch
    simp [Json.is_array, Json.as_array_ptr, hie, batch_loop_eq_spec]
    split <;> simp_all [batch_loop_eq_spec, List.isEmpty_eq_true]
  · intro xs ys t0 m0 s0
    exact batch_entries_spec_append router xs ys t0 m0 s0

/-- Witness for C3 on a singleton batch whose item is not an object. -/
theorem handle_batch_refines_spec_witness :
    ([Json.int 5] ≠ []) ∧
    Dispatcher.handle (⟨[]⟩ : Router Unit) (Json.arr [Json.int 5]) "" none () =
      (if (batch_entries_spec (⟨[]⟩ : Router Unit) [Json.int 5] "" none ()).1.isEmpty
       then none
       else some (Json.arr
         (batch_entries_spec (⟨[]⟩ : Router Unit) [Json.int 5] "" none ()).1),
       (batch_entries_spec (⟨[]⟩ : Router Unit) [Json.int 5] "" none ()).2) :=
  ⟨List.cons_ne_nil _ _,
    (handle_batch_refines_spec (⟨[]⟩ : Router Unit) [Json.int 5] "" none ()
      (List.cons_ne_nil _ _)).1⟩

end VixWebrpc
